import Mathlib

/-!
Verification development for the customer-feedback dashboard
(`customer_feedback_dashboard_final.py`, with `customer_feedback_dashboard_v6.py`
as a second copy of the same scoring core).

The scoring core works on Python/numpy floating-point values.  We embed a
float value as `Option ℚ`: `some q` is a finite value with exact rational
arithmetic, and `none` stands for a non-finite value (NaN or ±infinity,
as produced by division by zero) or a missing cell (`NaN` after
`pd.to_numeric(..., errors='coerce')`).  On the operations actually used by
the pipeline (addition, subtraction, multiplication, division, sums and
means) a non-finite operand always yields a non-finite result, so modelling
all non-finite values by `none` is sound for these paths.
-/

/-- A Python/numpy float after coercion: `some q` = finite value,
`none` = NaN / infinity / missing. -/
abbrev PFloat := Option ℚ

/-- Float addition: NaN/inf propagates. -/
def pfAdd : PFloat → PFloat → PFloat
  | some a, some b => some (a + b)
  | _, _ => none

/-- Float subtraction: NaN/inf propagates. -/
def pfSub : PFloat → PFloat → PFloat
  | some a, some b => some (a - b)
  | _, _ => none

/-- Float multiplication: NaN/inf propagates. -/
def pfMul : PFloat → PFloat → PFloat
  | some a, some b => some (a * b)
  | _, _ => none

/-- Float division: a zero denominator yields NaN/inf (modelled `none`),
otherwise exact division; NaN/inf operands propagate. -/
def pfDiv : PFloat → PFloat → PFloat
  | some a, some b => if b = 0 then none else some (a / b)
  | _, _ => none

/-- Python `sum(xs)`: left fold of addition starting at 0. -/
def pfSum (xs : List PFloat) : PFloat :=
  xs.foldl pfAdd (some 0)

/-- One row of the cleaned dataframe `df`: the customer name (already
`str.strip`ped; `none` when the name cell was missing) and, per category in
the fixed order Timeliness, Competence, Clarity, Quality, Service, Pricing,
the coerced importance and performance cells. -/
structure Row where
  name : Option String
  imp : List PFloat
  perf : List PFloat
deriving DecidableEq

/-- `df = df[df["Customer Name"].notna()]`: keep rows with a resolvable name. -/
def validRows (rows : List Row) : List Row :=
  rows.filter (fun r => r.name.isSome)

/-- `total_importance = sum(importance)` (source line 70). -/
def total_importance (r : Row) : PFloat :=
  pfSum r.imp

/-- `weights = [imp / total_importance for imp in importance]` (source line 71). -/
def weights (r : Row) : List PFloat :=
  r.imp.map (fun imp => pfDiv imp (total_importance r))

/-- `weighted_perf = [p * w for p, w in zip(performance, weights)]`
(source line 72); `zip` truncates to the shorter list, as `List.zipWith` does. -/
def weighted_perf (r : Row) : List PFloat :=
  List.zipWith pfMul r.perf (weights r)

/-- `satisfaction = (sum(weighted_perf) / 5) * 100` (source line 73):
the divisor in the code is the literal 5. -/
def satisfaction (r : Row) : PFloat :=
  pfMul (pfDiv (pfSum (weighted_perf r)) (some 5)) (some 100)

/-- The `ratings` list accumulated over the rows of `df` (source lines 61-74):
one `satisfaction` value per valid row, in row order. -/
def ratings (df : List Row) : List PFloat :=
  df.map satisfaction

/-- `np.mean(xs)`: sum divided by length; NaN on a NaN/inf element or an
empty list (numpy's mean does not skip NaN). -/
def npMean (xs : List PFloat) : PFloat :=
  pfDiv (pfSum xs) (some xs.length)

/-- pandas `Series.mean()`: skips missing (NaN) entries and averages the
rest; NaN when no entry remains. -/
def pdMean (xs : List PFloat) : PFloat :=
  pfDiv (some xs.reduceOption.sum) (some xs.reduceOption.length)

/-- Column `c`'s importance average, `df[f"{c}_Importance"].mean()`
(source line 117). -/
def avg_importance (df : List Row) (c : Nat) : PFloat :=
  pdMean (df.map (fun r => r.imp.getD c none))

/-- Column `c`'s performance average, `df[f"{c}_Performance"].mean()`
(source line 118). -/
def avg_performance (df : List Row) (c : Nat) : PFloat :=
  pdMean (df.map (fun r => r.perf.getD c none))

/-- `summary["Gap"] = summary["Performance"] - summary["Importance"]`
(source line 120). -/
def gap (df : List Row) (c : Nat) : PFloat :=
  pfSub (avg_performance df c) (avg_importance df c)

/-- The `summary["Importance"]` column: one average per category, in the
fixed category order (6 categories). -/
def summaryImp (df : List Row) : List PFloat :=
  (List.range 6).map (avg_importance df)

/-- The `summary["Performance"]` column. -/
def summaryPerf (df : List Row) : List PFloat :=
  (List.range 6).map (avg_performance df)

/-- `imp_avg = summary["Importance"].mean()` (source line 135). -/
def imp_avg (df : List Row) : PFloat :=
  pdMean (summaryImp df)

/-- `perf_avg = summary["Performance"].mean()` (source line 136). -/
def perf_avg (df : List Row) : PFloat :=
  pdMean (summaryPerf df)

/-- `CSI = (perf_avg / imp_avg) * 100` (source line 137). -/
def CSI (df : List Row) : PFloat :=
  pfMul (pfDiv (perf_avg df) (imp_avg df)) (some 100)

/-- `avg_customer_sat = np.mean(ratings)` (source line 138). -/
def avg_customer_sat (df : List Row) : PFloat :=
  npMean (ratings df)

/-- The square of `np.std(xs)`: the mean of the squared deviations from the
mean, divisor `n` (numpy's default `ddof=0`); NaN propagates and the empty
list gives NaN.  The reported dispersion (source line 175) is its square
root, which we reason about through this square since the two determine
each other on non-negative values. -/
def npStdSq (xs : List PFloat) : PFloat :=
  npMean (xs.map (fun x => pfMul (pfSub x (npMean xs)) (pfSub x (npMean xs))))

/-- Squared dispersion of category `c`: `np.std(df[f"{c}_Performance"])`
squared (source line 175). -/
def dispersion_sq (df : List Row) (c : Nat) : PFloat :=
  npStdSq (df.map (fun r => r.perf.getD c none))

/-! The document-export pass (source lines 498-506) re-runs the scoring
formulas on each row; we transcribe that second block separately so that
its agreement with the display pass is a theorem, not a definition. -/

/-- `total_importance = sum(importance)` as recomputed in the export pass
(source line 503). -/
def total_importance_export (r : Row) : PFloat :=
  pfSum r.imp

/-- `weights = [imp / total_importance for imp in importance]` as recomputed
in the export pass (source line 504). -/
def weights_export (r : Row) : List PFloat :=
  r.imp.map (fun imp => pfDiv imp (total_importance_export r))

/-- `weighted_perf = [p * w for p, w in zip(performance, weights)]` as
recomputed in the export pass (source line 505). -/
def weighted_perf_export (r : Row) : List PFloat :=
  List.zipWith pfMul r.perf (weights_export r)

/-- `satisfaction = (sum(weighted_perf) / 5) * 100` as recomputed in the
export pass (source line 506). -/
def satisfaction_export (r : Row) : PFloat :=
  pfMul (pfDiv (pfSum (weighted_perf_export r)) (some 5)) (some 100)

/-- All numeric outputs of one pipeline run over the cleaned dataframe. -/
structure Results where
  outRatings : List PFloat
  outSummaryImp : List PFloat
  outSummaryPerf : List PFloat
  outGaps : List PFloat
  outCSI : PFloat
  outAvgSat : PFloat
  outDispersionSq : List PFloat
deriving DecidableEq

/-- One full pipeline run: normalize (drop rows without a name), score each
customer, aggregate. -/
def pipelineRun (rows : List Row) : Results :=
  let df := validRows rows
  { outRatings := ratings df
    outSummaryImp := summaryImp df
    outSummaryPerf := summaryPerf df
    outGaps := (List.range 6).map (gap df)
    outCSI := CSI df
    outAvgSat := avg_customer_sat df
    outDispersionSq := (List.range 6).map (dispersion_sq df) }

/-! Definitions taken from the specification's words, for comparison with
the code. -/

/-- Modelled from the spec (claim C1):
`satisfaction_pct = (Σ contribution[i] / category_count) * 100` with
`category_count` the fixed number of categories, 6. -/
def satisfaction_specD6 (r : Row) : PFloat :=
  pfMul (pfDiv (pfSum (weighted_perf r)) (some 6)) (some 100)

/-- Modelled from the spec (claim C8): the population variance, the squared
population standard deviation — squared deviations from the mean summed and
divided by `n`. -/
def popVariance (qs : List ℚ) : ℚ :=
  (qs.map (fun x => (x - qs.sum / qs.length) ^ 2)).sum / qs.length

/-- The sample variance (divisor `n - 1`), stated only to distinguish the
population convention from the sample convention. -/
def sampleVariance (qs : List ℚ) : ℚ :=
  (qs.map (fun x => (x - qs.sum / qs.length) ^ 2)).sum / ((qs.length : ℚ) - 1)

/-! Concrete rows used as inputs. -/

/-- The spec's scenario record: importance `[5,1,1,1,1,1]`,
performance `[1,5,5,5,5,5]`. -/
def rowScenario : Row :=
  { name := some "A"
    imp := [some 5, some 1, some 1, some 1, some 1, some 1]
    perf := [some 1, some 5, some 5, some 5, some 5, some 5] }

/-- A record whose importance cells are all zero, so `total_importance = 0`. -/
def rowZeroImp : Row :=
  { name := some "Z"
    imp := [some 0, some 0, some 0, some 0, some 0, some 0]
    perf := [some 3, some 4, some 5, some 3, some 4, some 5] }

/-- A raw row whose name cell is missing: dropped by the normalizer. -/
def rowNoName : Row :=
  { name := none
    imp := [some 1, some 2, some 3, some 4, some 5, some 1]
    perf := [some 1, some 2, some 3, some 4, some 5, some 1] }

/-- A fully-filled record used in the missing-value claims. -/
def rowFull : Row :=
  { name := some "F"
    imp := [some 4, some 4, some 4, some 4, some 4, some 4]
    perf := [some 4, some 4, some 4, some 4, some 4, some 4] }

/-- A record with a missing performance and importance cell in category 0
but values in the other categories. -/
def rowMissing0 : Row :=
  { name := some "M"
    imp := [none, some 2, some 2, some 2, some 2, some 2]
    perf := [none, some 2, some 2, some 2, some 2, some 2] }

/-! Helper lemmas: computations on all-finite data reduce to exact rational
arithmetic. -/

theorem foldl_pfAdd_map_some (qs : List ℚ) :
    ∀ a : ℚ, List.foldl pfAdd (some a) (qs.map some) = some (a + qs.sum) := by
  induction qs with
  | nil => intro a; simp
  | cons q qs ih => intro a; simp [pfAdd, ih (a + q), add_assoc]

theorem pfSum_map_some (qs : List ℚ) : pfSum (qs.map some) = some qs.sum := by
  simpa [pfSum] using foldl_pfAdd_map_some qs 0

theorem zipWith_pfMul_map_some :
    ∀ ps qs : List ℚ, List.zipWith pfMul (ps.map some) (qs.map some) =
      (List.zipWith (fun p q => p * q) ps qs).map some
  | [], _ => by simp
  | _ :: _, [] => by simp
  | p :: ps, q :: qs => by simp [pfMul, zipWith_pfMul_map_some ps qs]

theorem reduceOption_map_some (qs : List ℚ) : (qs.map some).reduceOption = qs := by
  induction qs with
  | nil => rfl
  | cons q qs ih => simp [ih]

theorem sum_map_div (qs : List ℚ) (t : ℚ) :
    (qs.map (fun q => q / t)).sum = qs.sum / t := by
  induction qs with
  | nil => simp
  | cons q qs ih => simp [ih, add_div]

theorem weights_finite (nm : Option String) (pf : List PFloat) (qs : List ℚ)
    (h : qs.sum ≠ 0) :
    weights ⟨nm, qs.map some, pf⟩ = (qs.map (fun q => q / qs.sum)).map some := by
  unfold weights total_importance
  show (qs.map some).map (fun imp => pfDiv imp (pfSum (qs.map some))) = _
  rw [pfSum_map_some]
  simp [List.map_map, pfDiv, h, Function.comp]

theorem satisfaction_finite (nm : Option String) (ps qs : List ℚ) (h : qs.sum ≠ 0) :
    satisfaction ⟨nm, qs.map some, ps.map some⟩ =
      some ((List.zipWith (fun p q => p * (q / qs.sum)) ps qs).sum / 5 * 100) := by
  unfold satisfaction weighted_perf
  rw [weights_finite nm (ps.map some) qs h]
  show pfMul (pfDiv (pfSum (List.zipWith pfMul (ps.map some)
      ((qs.map (fun q => q / qs.sum)).map some))) (some 5)) (some 100) = _
  rw [zipWith_pfMul_map_some, pfSum_map_some, List.zipWith_map_right]
  norm_num [pfDiv, pfMul]

theorem zipWith_mul_sum_bound :
    ∀ ps ws : List ℚ, (∀ p ∈ ps, 0 ≤ p ∧ p ≤ 5) → (∀ w ∈ ws, 0 ≤ w) →
      0 ≤ (List.zipWith (fun p w => p * w) ps ws).sum ∧
        (List.zipWith (fun p w => p * w) ps ws).sum ≤ 5 * ws.sum
  | [], ws, _, hw => by
    constructor
    · simp
    · simpa using mul_nonneg (by norm_num : (0:ℚ) ≤ 5) (List.sum_nonneg hw)
  | _ :: _, [], _, _ => by simp
  | p :: ps, w :: ws, hp, hw => by
    obtain ⟨h1, h2⟩ := zipWith_mul_sum_bound ps ws
      (fun x hx => hp x (List.mem_cons_of_mem _ hx))
      (fun x hx => hw x (List.mem_cons_of_mem _ hx))
    have hp0 := hp p (List.mem_cons_self _ _)
    have hw0 := hw w (List.mem_cons_self _ _)
    have hpw : p * w ≤ 5 * w := mul_le_mul_of_nonneg_right hp0.2 hw0
    refine ⟨?_, ?_⟩
    · simp only [List.zipWith_cons_cons, List.sum_cons]
      exact add_nonneg (mul_nonneg hp0.1 hw0) h1
    · simp only [List.zipWith_cons_cons, List.sum_cons]
      linarith

theorem length_cast_ne_zero {qs : List ℚ} (h : qs ≠ []) : (qs.length : ℚ) ≠ 0 := by
  exact_mod_cast (List.length_pos.mpr h).ne'

theorem npMean_map_some (qs : List ℚ) (h : qs ≠ []) :
    npMean (qs.map some) = some (qs.sum / qs.length) := by
  unfold npMean
  rw [pfSum_map_some, List.length_map]
  simp [pfDiv, length_cast_ne_zero h]

theorem npStdSq_map_some (qs : List ℚ) (h : qs ≠ []) :
    npStdSq (qs.map some) = some (popVariance qs) := by
  unfold npStdSq
  rw [npMean_map_some qs h]
  have hmap : (qs.map some).map
      (fun x => pfMul (pfSub x (some (qs.sum / qs.length))) (pfSub x (some (qs.sum / qs.length)))) =
        (qs.map (fun x => (x - qs.sum / qs.length) ^ 2)).map some := by
    simp only [List.map_map]
    refine List.map_congr_left ?_
    intro x _
    simp [pfSub, pfMul, Function.comp, pow_two]
  rw [hmap, npMean_map_some _ (by simpa using h)]
  simp [popVariance, List.length_map]

/-- C1 counterexample: on the spec's own scenario record the code computes
60% (divisor 5, the rating-scale maximum) while the claimed formula with
`category_count = 6` gives 50%, so the claim is false as stated. -/
theorem satisfaction_divisor_not_category_count :
    satisfaction rowScenario = some 60 ∧ satisfaction_specD6 rowScenario = some 50 ∧
      satisfaction rowScenario ≠ satisfaction_specD6 rowScenario := by
  refine ⟨?_, ?_, ?_⟩ <;>
    norm_num [satisfaction, satisfaction_specD6, weighted_perf, weights,
      total_importance, pfSum, pfAdd, pfMul, pfDiv, rowScenario]

/-- C1 (amended): for every record with finite ratings and non-zero
total importance, `satisfaction_pct = (Σ contribution[i] / 5) * 100`,
where 5 is the rating-scale maximum (not the category count),
`contribution[i] = performance[i] * weight[i]` and
`weight[i] = importance[i] / total_importance`. -/
theorem satisfaction_divisor_is_five (nm : Option String) (ps qs : List ℚ)
    (h : qs.sum ≠ 0) :
    satisfaction ⟨nm, qs.map some, ps.map some⟩ =
      some ((List.zipWith (fun p q => p * (q / qs.sum)) ps qs).sum / 5 * 100) :=
  satisfaction_finite nm ps qs h

/-- C1 witness: the amended formula evaluated on the scenario record. -/
theorem satisfaction_divisor_is_five_witness :
    ([5, 1, 1, 1, 1, 1] : List ℚ).sum ≠ 0 ∧
      satisfaction ⟨some "A", ([5, 1, 1, 1, 1, 1] : List ℚ).map some,
          ([1, 5, 5, 5, 5, 5] : List ℚ).map some⟩ =
        some ((List.zipWith (fun p q => p * (q / ([5, 1, 1, 1, 1, 1] : List ℚ).sum))
          [1, 5, 5, 5, 5, 5] [5, 1, 1, 1, 1, 1]).sum / 5 * 100) :=
  ⟨by norm_num, satisfaction_divisor_is_five (some "A") [1, 5, 5, 5, 5, 5]
    [5, 1, 1, 1, 1, 1] (by norm_num)⟩

/-- C2 counterexample: the scenario record's satisfaction is not 50%. -/
theorem scenario_not_fifty_pct : satisfaction rowScenario ≠ some 50 := by
  norm_num [satisfaction, weighted_perf, weights, total_importance,
    pfSum, pfAdd, pfMul, pfDiv, rowScenario]

/-- C2 (amended): for the scenario record (importance `[5,1,1,1,1,1]`,
performance `[1,5,5,5,5,5]`) the scorer yields `total_importance = 10`,
`weights = [0.5, 0.1, 0.1, 0.1, 0.1, 0.1]`, contributions all `0.5`, and
`satisfaction_pct = (3.0 / 5) * 100 = 60.0` (not 50.0: the code divides
by 5). -/
theorem scenario_breakdown_sixty_pct :
    total_importance rowScenario = some 10 ∧
      weights rowScenario = [some (1/2), some (1/10), some (1/10),
        some (1/10), some (1/10), some (1/10)] ∧
      weighted_perf rowScenario = [some (1/2), some (1/2), some (1/2),
        some (1/2), some (1/2), some (1/2)] ∧
      satisfaction rowScenario = some 60 := by
  refine ⟨?_, ?_, ?_, ?_⟩ <;>
    norm_num [satisfaction, weighted_perf, weights, total_importance,
      pfSum, pfAdd, pfMul, pfDiv, rowScenario]

/-- C3: for a record whose importance cells are all zero the code divides
by zero with no check: the record's satisfaction is NaN (`none`), and
`np.mean(ratings)` then silently propagates that NaN into the company-wide
average customer satisfaction instead of flagging it — contrary to the
spec's required handling. -/
theorem zero_importance_nan_into_aggregates :
    total_importance rowZeroImp = some 0 ∧
      satisfaction rowZeroImp = none ∧
      avg_customer_sat [rowScenario, rowZeroImp] = none := by
  refine ⟨?_, ?_, ?_⟩ <;>
    norm_num [avg_customer_sat, ratings, npMean, satisfaction, weighted_perf,
      weights, total_importance, pfSum, pfAdd, pfMul, pfDiv,
      rowScenario, rowZeroImp]

/-- C4: whenever total importance is strictly positive and the importance
cells are finite, the computed weights sum to exactly 1, hence to 1 within
the claimed `1e-9` tolerance. -/
theorem weights_sum_to_one (nm : Option String) (pf : List PFloat)
    (qs : List ℚ) (h : 0 < qs.sum) :
    ∃ s, pfSum (weights ⟨nm, qs.map some, pf⟩) = some s ∧
      |s - 1| ≤ 1 / 1000000000 := by
  refine ⟨1, ?_, by norm_num⟩
  rw [weights_finite nm pf qs h.ne', pfSum_map_some, sum_map_div, div_self h.ne']

/-- C4 witness: the weight sum evaluated on the scenario importances. -/
theorem weights_sum_to_one_witness :
    (0 : ℚ) < ([5, 1, 1, 1, 1, 1] : List ℚ).sum ∧
      ∃ s, pfSum (weights ⟨some "W", ([5, 1, 1, 1, 1, 1] : List ℚ).map some, []⟩) =
        some s ∧ |s - 1| ≤ 1 / 1000000000 :=
  ⟨by norm_num, weights_sum_to_one (some "W") [] [5, 1, 1, 1, 1, 1] (by norm_num)⟩

/-- C5: the company satisfaction index is
`(mean(avg_performance) / mean(avg_importance)) * 100` over the six
category averages, the average customer satisfaction is the mean of the
per-customer satisfaction percentages, and on the scenario dataset the two
numbers diverge (260% vs 60%). -/
theorem csi_and_avg_sat_distinct :
    (∀ (df : List Row) (as bs : List ℚ),
        summaryImp df = as.map some → summaryPerf df = bs.map some →
        as ≠ [] → bs ≠ [] → as.sum / as.length ≠ 0 →
        CSI df = some (bs.sum / bs.length / (as.sum / as.length) * 100)) ∧
      (∀ (df : List Row) (ss : List ℚ),
        ratings df = ss.map some → ss ≠ [] →
        avg_customer_sat df = some (ss.sum / ss.length)) ∧
      CSI [rowScenario] ≠ avg_customer_sat [rowScenario] := by
  refine ⟨?_, ?_, ?_⟩
  · intro df as bs ha hb hane hbne hratio
    unfold CSI perf_avg imp_avg
    rw [ha, hb]
    unfold pdMean
    rw [reduceOption_map_some, reduceOption_map_some]
    simp [pfDiv, pfMul, length_cast_ne_zero hane, length_cast_ne_zero hbne, hratio]
  · intro df ss hs hne
    unfold avg_customer_sat npMean
    rw [hs, pfSum_map_some, List.length_map]
    simp [pfDiv, length_cast_ne_zero hne]
  · norm_num [CSI, perf_avg, imp_avg, summaryImp, summaryPerf, avg_importance,
      avg_performance, pdMean, avg_customer_sat, ratings, npMean, satisfaction,
      weighted_perf, weights, total_importance, pfSum, pfAdd, pfMul, pfDiv,
      List.range_succ, rowScenario]

/-- C5 witness: both formulas evaluated on the one-customer scenario
dataset, where CSI is 260% and average satisfaction is 60%. -/
theorem csi_and_avg_sat_distinct_witness :
    CSI [rowScenario] =
        some (([1, 5, 5, 5, 5, 5] : List ℚ).sum / ([1, 5, 5, 5, 5, 5] : List ℚ).length /
          (([5, 1, 1, 1, 1, 1] : List ℚ).sum / ([5, 1, 1, 1, 1, 1] : List ℚ).length) * 100) ∧
      avg_customer_sat [rowScenario] = some (([60] : List ℚ).sum / ([60] : List ℚ).length) :=
  ⟨csi_and_avg_sat_distinct.1 [rowScenario] [5, 1, 1, 1, 1, 1] [1, 5, 5, 5, 5, 5]
      (by norm_num [summaryImp, avg_importance, pdMean, pfDiv, List.range_succ, rowScenario])
      (by norm_num [summaryPerf, avg_performance, pdMean, pfDiv, List.range_succ, rowScenario])
      (by simp) (by simp) (by norm_num),
    csi_and_avg_sat_distinct.2.1 [rowScenario] [60]
      (by norm_num [ratings, satisfaction, weighted_perf, weights, total_importance,
        pfSum, pfAdd, pfMul, pfDiv, rowScenario])
      (by norm_num)⟩

/-- C6: for a record with six finite categories, non-negative importance
with positive total (the valid-record reading of the claim), and all
performance values in `[0, 5]`, the computed satisfaction percentage lies
in `[0, 100]`. -/
theorem satisfaction_pct_bounded (nm : Option String) (ps qs : List ℚ)
    (_hql : qs.length = 6) (_hpl : ps.length = 6)
    (hq : ∀ q ∈ qs, 0 ≤ q) (hqs : 0 < qs.sum)
    (hp : ∀ p ∈ ps, 0 ≤ p ∧ p ≤ 5) :
    ∃ s, satisfaction ⟨nm, qs.map some, ps.map some⟩ = some s ∧
      0 ≤ s ∧ s ≤ 100 := by
  refine ⟨_, satisfaction_finite nm ps qs hqs.ne', ?_, ?_⟩ <;>
  · have hzip : List.zipWith (fun p q => p * (q / qs.sum)) ps qs
        = List.zipWith (fun p w => p * w) ps (qs.map (fun q => q / qs.sum)) := by
      rw [List.zipWith_map_right]
    have hwnn : ∀ w ∈ qs.map (fun q => q / qs.sum), 0 ≤ w := by
      intro w hw
      obtain ⟨q, hq', rfl⟩ := List.mem_map.mp hw
      exact div_nonneg (hq q hq') hqs.le
    have hws : (qs.map (fun q => q / qs.sum)).sum = 1 := by
      rw [sum_map_div, div_self hqs.ne']
    obtain ⟨h1, h2⟩ := zipWith_mul_sum_bound ps _ hp hwnn
    rw [hws] at h2
    rw [hzip]
    linarith

/-- C6 witness: the bound evaluated on the scenario record. -/
theorem satisfaction_pct_bounded_witness :
    ([5, 1, 1, 1, 1, 1] : List ℚ).length = 6 ∧
      ([1, 5, 5, 5, 5, 5] : List ℚ).length = 6 ∧
      (0 : ℚ) < ([5, 1, 1, 1, 1, 1] : List ℚ).sum ∧
      ∃ s, satisfaction ⟨some "B", ([5, 1, 1, 1, 1, 1] : List ℚ).map some,
          ([1, 5, 5, 5, 5, 5] : List ℚ).map some⟩ = some s ∧ 0 ≤ s ∧ s ≤ 100 :=
  ⟨by norm_num, by norm_num, by norm_num,
    satisfaction_pct_bounded (some "B") [1, 5, 5, 5, 5, 5] [5, 1, 1, 1, 1, 1]
      (by norm_num) (by norm_num)
      (by norm_num [List.forall_mem_cons]) (by norm_num)
      (by norm_num [List.forall_mem_cons])⟩

/-- C7: on a dataset whose only row lacks a resolvable name, the
normalizer leaves zero valid rows, yet the pipeline raises no error and
proceeds: every rating, category average, the CSI and the average customer
satisfaction are computed, all as NaN — there is no `EmptyDataset` error
or explicit no-data signal in the code. -/
theorem empty_dataset_not_signalled :
    validRows [rowNoName] = [] ∧
      ratings (validRows [rowNoName]) = [] ∧
      summaryImp (validRows [rowNoName]) = [none, none, none, none, none, none] ∧
      CSI (validRows [rowNoName]) = none ∧
      avg_customer_sat (validRows [rowNoName]) = none := by
  refine ⟨?_, ?_, ?_, ?_, ?_⟩ <;>
    norm_num [validRows, rowNoName, ratings, summaryImp, avg_importance,
      avg_performance, CSI, perf_avg, imp_avg, summaryPerf, pdMean,
      avg_customer_sat, npMean, pfSum, pfAdd, pfMul, pfDiv, List.range_succ]

/-- C8: the reported dispersion of a category is the population standard
deviation of its performance column: on any all-finite non-empty column the
square of `np.std` equals the population variance (squared deviations from
the mean, divisor `n`), and it differs from the sample variance
(divisor `n - 1`), as witnessed on the list `[1, 2]`. -/
theorem dispersion_population_std :
    (∀ (df : List Row) (c : Nat) (qs : List ℚ),
        df.map (fun r => r.perf.getD c none) = qs.map some → qs ≠ [] →
        dispersion_sq df c = some (popVariance qs)) ∧
      npStdSq (([1, 2] : List ℚ).map some) ≠ some (sampleVariance [1, 2]) := by
  constructor
  · intro df c qs hcol hne
    unfold dispersion_sq
    rw [hcol, npStdSq_map_some qs hne]
  · rw [npStdSq_map_some [1, 2] (by simp)]
    norm_num [popVariance, sampleVariance]

/-- C8 witness: the dispersion of category 0 on the one-row scenario
dataset equals the population variance of its column. -/
theorem dispersion_population_std_witness :
    [rowScenario].map (fun r => r.perf.getD 0 none) = ([1] : List ℚ).map some ∧
      dispersion_sq [rowScenario] 0 = some (popVariance [1]) :=
  ⟨by norm_num [rowScenario],
    dispersion_population_std.1 [rowScenario] 0 [1] (by norm_num [rowScenario]) (by simp)⟩

/-- C9: scoring is a pure function of the snapshot: the satisfaction
recomputed by the document-export pass (transcribed separately from source
lines 503-506) agrees with the display pass for every record, and a full
pipeline run on the same snapshot yields identical results (in this pure
embedding, definitionally so). -/
theorem scoring_pure_and_repeatable :
    (∀ r : Row, satisfaction_export r = satisfaction r) ∧
      ∀ rows : List Row, pipelineRun rows = pipelineRun rows :=
  ⟨fun _ => rfl, fun _ => rfl⟩

/-- C9 witness: the two passes agree on the scenario record. -/
theorem scoring_pure_and_repeatable_witness :
    satisfaction_export rowScenario = satisfaction rowScenario ∧
      pipelineRun [rowScenario] = pipelineRun [rowScenario] :=
  ⟨scoring_pure_and_repeatable.1 rowScenario,
    scoring_pure_and_repeatable.2 [rowScenario]⟩

/-- C10: the company-wide per-category averages skip missing cells: adding
a record whose cell in category `c` is missing leaves category `c`'s
average unchanged (for performance and importance alike); concretely,
a record missing category 0 but rated in category 1 leaves the category-0
average at the other record's value 4 (a zero-fill would give 2) while its
rating 2 still moves the category-1 average to 3. -/
theorem column_mean_skips_missing :
    (∀ (df : List Row) (r : Row) (c : Nat), r.perf.getD c none = none →
        avg_performance (df ++ [r]) c = avg_performance df c) ∧
      (∀ (df : List Row) (r : Row) (c : Nat), r.imp.getD c none = none →
        avg_importance (df ++ [r]) c = avg_importance df c) ∧
      avg_performance [rowFull, rowMissing0] 0 = some 4 ∧
      avg_performance [rowFull, rowMissing0] 1 = some 3 := by
  refine ⟨?_, ?_, ?_, ?_⟩
  · intro df r c h
    unfold avg_performance pdMean
    rw [List.map_append]
    simp only [List.map_cons, List.map_nil, h]
    simp [List.reduceOption_append]
  · intro df r c h
    unfold avg_importance pdMean
    rw [List.map_append]
    simp only [List.map_cons, List.map_nil, h]
    simp [List.reduceOption_append]
  · norm_num [avg_performance, pdMean, pfDiv, rowFull, rowMissing0]
  · norm_num [avg_performance, pdMean, pfDiv, rowFull, rowMissing0]

/-- C10 witness: appending the record with the missing category-0 cell
leaves the category-0 performance average unchanged. -/
theorem column_mean_skips_missing_witness :
    rowMissing0.perf.getD 0 none = none ∧
      avg_performance ([rowFull] ++ [rowMissing0]) 0 = avg_performance [rowFull] 0 :=
  ⟨by norm_num [rowMissing0],
    column_mean_skips_missing.1 [rowFull] rowMissing0 0 (by norm_num [rowMissing0])⟩
